import Mathlib

/-!
Verification development for the mindverse-backend chatbot pipeline
(`src/chatbot/chatbot.py`, `src/chatbot/chatbot_api.py`,
`src/chatbot/meeting_api.py`, `src/chatbot/meeting_analyzer.py`).

The Python sources are shallowly embedded as executable Lean definitions:

* Python strings are `String`; `x in y` (substring test) is `containsSub`;
  `str.lower()` is `strLower`; `str.strip()` is `pythonStrip`.
* A MongoDB document is a structure with `Option` fields (a missing key is
  `none`).  The store boundary (collections queried with a filter and a
  limit) is a structure of `Except`-valued functions, so a store fault is
  an `Except.error`, mirroring a raised `pymongo` exception.  `goodStore`
  is the non-faulting store over an in-memory database: Mongo `$match`
  with an escaped `$regex` is case-insensitive substring filtering,
  `.limit(n)` is `pyLimit` (PyMongo treats `limit(0)` as no limit), an
  aggregation `$limit` of 0 is the error MongoDB raises for it, and
  `$lookup` joins by collecting the referenced user documents.
* Python `dict` filter arguments are embedded as the predicates that the
  concrete Mongo filters denote; the only filter the intent analyzer ever
  produces is a `progressStatus` binding, so an intent's `filters` dict is
  an `Option String` (`none` is the empty dict).
* A caught exception (`try/except` returning a fallback) becomes a `match`
  on the `Except` value; code that can itself raise (`task_data['key']` on
  a possibly missing key) returns `Except`.
-/

/-! ## Python string primitives -/

/-- `prefixMatch p l` is true when `p` is a prefix of `l` (char by char). -/
def prefixMatch : List Char → List Char → Bool
  | [], _ => true
  | _ :: _, [] => false
  | a :: as, b :: bs => a == b && prefixMatch as bs

/-- `hasSubList needle hay`: does `needle` occur contiguously in `hay`?
The empty needle occurs in everything, matching Python `"" in s`. -/
def hasSubList (needle : List Char) : List Char → Bool
  | [] => prefixMatch needle []
  | c :: rest => prefixMatch needle (c :: rest) || hasSubList needle rest

/-- Python `needle in hay` for strings. -/
def containsSub (needle hay : String) : Bool :=
  hasSubList needle.data hay.data

/-- Python `str.lower()` (the sources only feed it ASCII text, where
Python and `Char.toLower` agree).  Defined by structural recursion on the
character list so that it evaluates inside the kernel. -/
def strLower (s : String) : String :=
  String.mk (s.data.map Char.toLower)

/-- Python regex `\s` / `str.strip()` whitespace: space, tab, newline,
carriage return, vertical tab, form feed. -/
def isPySpace (c : Char) : Bool :=
  c == ' ' || c == '\t' || c == '\n' || c == '\r' || c == '\x0b' || c == '\x0c'

/-- Python `str.strip()` on a char list. -/
def pythonStripList (l : List Char) : List Char :=
  ((l.dropWhile isPySpace).reverse.dropWhile isPySpace).reverse

/-- Python `str.strip()`. -/
def pythonStrip (s : String) : String :=
  String.mk (pythonStripList s.data)

/-- Python `list(dict.fromkeys(xs))` and (for our single-label uses)
`list(set(xs))`: de-duplicate keeping first occurrences.  (For `set` the
iteration order is unspecified in Python; every theorem below applies it
to lists with at most one distinct element, where any order agrees.) -/
def dedupFirst (l : List String) : List String :=
  l.foldl (fun acc s => if acc.contains s then acc else acc ++ [s]) []

/-! ## Intent classifier, `chatbot_api.py` (`analyze_query_intent`, lines 57-91) -/

/-- `chatbot_api.py` line 62. -/
def taskKeywordsApi : List String :=
  ["task", "tugas", "assigned", "endpoint", "api", "authentication", "auth",
   "development", "develop", "figma", "frontend", "backend", "integration",
   "coding", "review", "onboarding"]

/-- `chatbot_api.py` line 63. -/
def userKeywordsApi : List String :=
  ["user", "member", "team", "who", "role", "lead", "hr", "florence", "eris",
   "amelya", "aroliani", "python", "calista", "faisal", "lyne", "idon", "carol"]

/-- `chatbot_api.py` line 64. -/
def forumKeywordsApi : List String :=
  ["post", "discussion", "forum", "diskusi", "pompia", "tutorial", "wifi",
   "maintenance", "lunch"]

/-- `chatbot_api.py` line 88. -/
def commentKeywordsApi : List String := ["comment", "komentar"]

/-- `chatbot_api.py` status_map, "In Progress" entry (line 68). -/
def inProgressKeywordsApi : List String := ["progress", "sedang", "ongoing", "berlangsung"]

/-- `chatbot_api.py` status_map, "ToDo" entry (line 69). -/
def toDoKeywordsApi : List String := ["todo", "to do", "belum", "pending", "waiting"]

/-- `chatbot_api.py` status_map, "Done" entry (line 70). -/
def doneKeywordsApi : List String := ["done", "selesai", "completed", "finished", "complete"]

/-- `chatbot_api.py` status_map, "Review" entry (line 71). -/
def reviewKeywordsApi : List String := ["review", "checking", "direview"]

/-- `any(k in query_lower for k in keywords)`. -/
def kwAny (ks : List String) (ql : String) : Bool :=
  ks.any (fun k => containsSub k ql)

/-- The intent value object of `chatbot_api.py`: `filters` is the
`progressStatus` binding when present (`none` is the empty dict). -/
structure Intent where
  type : String
  filters : Option String
deriving DecidableEq

/-- The `for status, keywords in status_map.items(): ... break` loop of
`chatbot_api.py` lines 80-83; Python dicts iterate in insertion order, so
the sub-groups are tried as In Progress, ToDo, Done, Review. -/
def statusFilterApi (ql : String) : Option String :=
  if kwAny inProgressKeywordsApi ql then some "In Progress"
  else if kwAny toDoKeywordsApi ql then some "ToDo"
  else if kwAny doneKeywordsApi ql then some "Done"
  else if kwAny reviewKeywordsApi ql then some "Review"
  else none

/-- `chatbot_api.py` `analyze_query_intent` (lines 57-91). -/
def analyzeQueryIntentApi (query : String) : Intent :=
  let ql := strLower query
  if kwAny taskKeywordsApi ql then
    { type := "tasks", filters := statusFilterApi ql }
  else if kwAny userKeywordsApi ql then { type := "users", filters := none }
  else if kwAny forumKeywordsApi ql then { type := "posts", filters := none }
  else if kwAny commentKeywordsApi ql then { type := "comments", filters := none }
  else { type := "general", filters := none }

/-! ## Intent classifier, `chatbot.py` (`analyze_query_intent`, lines 63-127) -/

/-- `chatbot.py` line 73 (checked before any other group). -/
def forumKeywordsPy : List String :=
  ["pompia", "tutorial", "wifi", "maintenance", "lunch", "team"]

/-- `chatbot.py` line 79. -/
def taskKeywordsPy : List String := ["task", "tugas", "pekerjaan", "kerja"]

/-- `chatbot.py` lines 83-86. -/
def inProgressKeywordsPy : List String :=
  ["in progress", "sedang berjalan", "progress", "sedang dikerjakan",
   "lagi dikerjakan", "ongoing", "berlangsung"]

/-- `chatbot.py` lines 91-95. -/
def toDoKeywordsPy : List String :=
  ["todo", "to do", "belum", "harus dikerjakan", "perlu dikerjakan",
   "belum selesai", "belum mulai", "belum dikerjakan", "pending",
   "need to be done", "not started", "waiting"]

/-- `chatbot.py` lines 100-103. -/
def doneKeywordsPy : List String :=
  ["done", "selesai", "completed", "finished", "sudah selesai",
   "sudah dikerjakan", "complete", "telah selesai"]

/-- `chatbot.py` lines 108-111. -/
def reviewKeywordsPy : List String :=
  ["review", "checking", "perlu review", "sedang direview", "butuh review",
   "for review", "under review"]

/-- `chatbot.py` line 116. -/
def userKeywordsPy : List String := ["user", "member", "team", "orang", "people"]

/-- `chatbot.py` line 120. -/
def postKeywordsPy : List String := ["post", "discussion", "forum", "diskusi"]

/-- `chatbot.py` line 124. -/
def commentKeywordsPy : List String := ["comment", "komentar"]

/-- The intent value object of `chatbot.py` (lines 65-69). -/
structure IntentPy where
  type : String
  filters : Option String
  specific_search : Bool
deriving DecidableEq

/-- The status elif cascade of `chatbot.py` lines 83-113 (priority order:
In Progress, ToDo, Done, Review). -/
def statusFilterPy (ql : String) : Option String :=
  if kwAny inProgressKeywordsPy ql then some "In Progress"
  else if kwAny toDoKeywordsPy ql then some "ToDo"
  else if kwAny doneKeywordsPy ql then some "Done"
  else if kwAny reviewKeywordsPy ql then some "Review"
  else none

/-- `chatbot.py` `analyze_query_intent` (lines 63-127): forum keywords are
checked FIRST, then task, user, post, comment keywords. -/
def analyzeQueryIntentPy (query : String) : IntentPy :=
  let ql := strLower query
  if kwAny forumKeywordsPy ql then
    { type := "posts", filters := none, specific_search := true }
  else if kwAny taskKeywordsPy ql then
    match statusFilterPy ql with
    | some s => { type := "tasks", filters := some s, specific_search := true }
    | none => { type := "tasks", filters := none, specific_search := false }
  else if kwAny userKeywordsPy ql then
    { type := "users", filters := none, specific_search := false }
  else if kwAny postKeywordsPy ql then
    { type := "posts", filters := none, specific_search := false }
  else if kwAny commentKeywordsPy ql then
    { type := "comments", filters := none, specific_search := false }
  else { type := "general", filters := none, specific_search := false }

/-! ## Document model and store boundary -/

/-- A `tasks` collection document (missing keys are `none`; `assignTo` is
the list of user `_id` references). -/
structure TaskDoc where
  name : Option String
  progressStatus : Option String
  description : Option String
  dueDate : Option String
  assignTo : List Nat
deriving DecidableEq

/-- A `users` collection document.  The truthiness tests
`item.get('isLead')` / `item.get('isHR')` are embedded as plain booleans
(a missing or falsy flag is `false`).  `role` is read only by
`chatbot.py`'s `search_users`. -/
structure UserDoc where
  id : Nat
  username : Option String
  name : Option String
  email : Option String
  isLead : Bool
  isHR : Bool
  role : Option String
deriving DecidableEq

/-- A `posts` collection document (`author` is a user `_id` reference). -/
structure PostDoc where
  title : Option String
  body : Option String
  author : Option Nat
deriving DecidableEq

/-- A `comments` collection document (author name stored directly in
`name`; `chatbot.py` additionally reads an `email` key). -/
structure CommentDoc where
  body : Option String
  name : Option String
  email : Option String
deriving DecidableEq

/-- The in-memory database behind the non-faulting store. -/
structure DB where
  tasks : List TaskDoc
  users : List UserDoc
  posts : List PostDoc
  comments : List CommentDoc

/-- The store boundary used by `chatbot_api.py`: each collection lookup
takes the predicate denoted by the Mongo filter the code builds, plus the
`$limit`/`.limit()` bound, and either returns documents or faults.
`tasksAggregate`/`postsAggregate` return each matched document together
with its `$lookup`-joined user documents (`assignedUsers`/`authorData`). -/
structure Store where
  tasksAggregate : (TaskDoc → Bool) → Nat → Except String (List (TaskDoc × List UserDoc))
  usersFind : (UserDoc → Bool) → Nat → Except String (List UserDoc)
  postsAggregate : (PostDoc → Bool) → Nat → Except String (List (PostDoc × List UserDoc))
  commentsFind : (CommentDoc → Bool) → Nat → Except String (List CommentDoc)

/-- PyMongo `cursor.limit(n)`: `limit(0)` means NO limit (the whole
result set); a positive `n` truncates to the first `n` documents. -/
def pyLimit (n : Nat) (l : List α) : List α :=
  if n = 0 then l else l.take n

/-- The non-faulting store over an in-memory `DB`: `$match` filters,
`$lookup` joins references against `users`.  The `find`-based lookups
truncate with `pyLimit` (`limit(0)` is no limit); the aggregation
pipelines fault on a `$limit` of 0, which MongoDB rejects as an error
("the limit must be positive"). -/
def goodStore (db : DB) : Store where
  tasksAggregate := fun pred lim =>
    if lim = 0 then .error "the limit must be positive"
    else
      .ok (((db.tasks.filter pred).map
        (fun t => (t, db.users.filter (fun u => t.assignTo.contains u.id)))).take lim)
  usersFind := fun pred lim => .ok (pyLimit lim (db.users.filter pred))
  postsAggregate := fun pred lim =>
    if lim = 0 then .error "the limit must be positive"
    else
      .ok (((db.posts.filter pred).map
        (fun p => (p, db.users.filter (fun u => p.author == some u.id)))).take lim)
  commentsFind := fun pred lim => .ok (pyLimit lim (db.comments.filter pred))

/-! ## Retriever, `chatbot_api.py` (lines 93-273) -/

/-- Case-insensitive literal containment: the denotation of the Mongo
condition `{field: {"$regex": re.escape(query), "$options": "i"}}` on a
present field. -/
def substrCI (pat s : String) : Bool :=
  containsSub (strLower pat) (strLower s)

/-- A Mongo field condition applied to a possibly missing field: a
missing field never matches a `$regex` condition. -/
def optField (f : Option String) (test : String → Bool) : Bool :=
  match f with
  | some s => test s
  | none => false

/-- The text-search branch of `chatbot_api.search_tasks` (lines 125-140):
an `$or` of escaped-regex containment on `name`/`description` plus the
three synonym clauses (an unescaped alternation `a|b|c` of literals is
"contains one of them"). -/
def taskTextFilter (query : String) (d : TaskDoc) : Bool :=
  let ql := strLower query
  (optField d.name (fun s => substrCI query s)
    || optField d.description (fun s => substrCI query s))
  || (if containsSub "auth" ql then
        optField d.name (fun s => ["auth", "login", "user"].any (fun p => substrCI p s))
      else false)
  || (if containsSub "endpoint" ql || containsSub "api" ql then
        optField d.description (fun s => ["endpoint", "api", "login"].any (fun p => substrCI p s))
      else false)
  || (if containsSub "figma" ql then
        optField d.name (fun s => ["figma", "edit"].any (fun p => substrCI p s))
      else false)

/-- The `$match` filter of `chatbot_api.search_tasks` (lines 121-140): a
non-empty `filters` dict is an exact `progressStatus` match (ignoring the
query text); otherwise the text search. -/
def taskMatchFilter (query : String) (filters : Option String) (d : TaskDoc) : Bool :=
  match filters with
  | some status => d.progressStatus == some status
  | none => taskTextFilter query d

/-- The retriever's tagged-union search result (the formatted dicts built
by the `search_*` functions; the `type` discriminator is the
constructor).  `chatbot.py`'s post/comment dicts carry extra keys
(`created_at`, `raw_data`, `email`) that no formatter reads; they are
dropped here. -/
inductive SearchResult where
  | task (name progressStatus description assignee due_date : String)
  | user (name email role : String)
  | post (title content author : String)
  | comment (content author : String)
deriving DecidableEq

/-- The result-formatting loop of `chatbot_api.search_tasks`
(lines 159-169). -/
def formatTaskItem (item : TaskDoc × List UserDoc) : SearchResult :=
  let assignees := item.2.map (fun u => u.username.getD (u.name.getD "Unknown"))
  .task (item.1.name.getD "Untitled Task")
    (item.1.progressStatus.getD "No status")
    (item.1.description.getD "")
    (if assignees.isEmpty then "Unassigned" else String.intercalate ", " assignees)
    (item.1.dueDate.getD "No deadline")

/-- `chatbot_api.search_tasks` (lines 119-175): build the filter, run the
aggregation, format; any store fault is caught and yields `[]`. -/
def searchTasks (st : Store) (query : String) (filters : Option String)
    (max_results : Nat) : List SearchResult :=
  match st.tasksAggregate (taskMatchFilter query filters) max_results with
  | .ok items => items.map formatTaskItem
  | .error _ => []

/-- The generic-query test of `chatbot_api.search_users` (line 180):
`not query or query.lower() in ['user', 'users', 'member', 'team', 'all']`. -/
def genericUserQuery (query : String) : Bool :=
  query == "" || ["user", "users", "member", "team", "all"].contains (strLower query)

/-- The filter of `chatbot_api.search_users` (lines 180-189): the empty
filter (matches everything) for a generic query, else an `$or` of
containment on `name`/`username`/`email`. -/
def userMatchFilter (query : String) (u : UserDoc) : Bool :=
  if genericUserQuery query then true
  else
    optField u.name (fun s => substrCI query s)
    || optField u.username (fun s => substrCI query s)
    || optField u.email (fun s => substrCI query s)

/-- The result-formatting loop of `chatbot_api.search_users`
(lines 194-202). -/
def formatUserItem (u : UserDoc) : SearchResult :=
  .user (u.username.getD (u.name.getD "User"))
    (u.email.getD "")
    (if u.isLead then "Lead" else if u.isHR then "HR" else "Member")

/-- `chatbot_api.search_users` (lines 177-208). -/
def searchUsers (st : Store) (query : String) (max_results : Nat) : List SearchResult :=
  match st.usersFind (userMatchFilter query) max_results with
  | .ok items => items.map formatUserItem
  | .error _ => []

/-- The `$match` filter of `chatbot_api.search_posts` (lines 213-219). -/
def postMatchFilter (query : String) (p : PostDoc) : Bool :=
  optField p.title (fun s => substrCI query s)
    || optField p.body (fun s => substrCI query s)

/-- The result-formatting loop of `chatbot_api.search_posts`
(lines 234-246): author resolved from the first `authorData` row, falling
back to "Unknown User". -/
def formatPostItem (item : PostDoc × List UserDoc) : SearchResult :=
  let author :=
    match item.2 with
    | [] => "Unknown User"
    | a :: _ => a.username.getD (a.name.getD "Unknown User")
  .post (item.1.title.getD "No Title") (item.1.body.getD "") author

/-- `chatbot_api.search_posts` (lines 210-252). -/
def searchPosts (st : Store) (query : String) (max_results : Nat) : List SearchResult :=
  match st.postsAggregate (postMatchFilter query) max_results with
  | .ok items => items.map formatPostItem
  | .error _ => []

/-- The filter of `chatbot_api.search_comments` (lines 256-261). -/
def commentMatchFilter (query : String) (c : CommentDoc) : Bool :=
  optField c.body (fun s => substrCI query s)
    || optField c.name (fun s => substrCI query s)

/-- `chatbot_api.search_comments` (lines 254-273). -/
def searchComments (st : Store) (query : String) (max_results : Nat) : List SearchResult :=
  match st.commentsFind (commentMatchFilter query) max_results with
  | .ok items =>
      items.map (fun c => .comment (c.body.getD "No content") (c.name.getD "Unknown"))
  | .error _ => []

/-- `chatbot_api.search_database` (lines 93-117): dispatch on the intent
type, concatenate sub-query results, truncate to `max_results`.  The
function is total: its own `try/except` and the `try/except` of every
`search_*` helper forbid an exception from escaping, which the `Except`
matches above realize. -/
def searchDatabase (st : Store) (query : String) (intent : Intent)
    (max_results : Nat) : List SearchResult :=
  (if intent.type = "tasks" then
    searchTasks st query intent.filters max_results
  else if intent.type = "users" then
    searchUsers st query (max_results / 2) ++ searchTasks st query none (max_results / 2)
  else if intent.type = "posts" then
    searchPosts st query max_results
  else if intent.type = "comments" then
    searchComments st query max_results
  else
    searchTasks st query none (max_results / 3)
      ++ searchUsers st query (max_results / 3)
      ++ searchPosts st query (max_results / 3)).take max_results

/-! ## Context formatter, `chatbot_api.py` (`format_context`, lines 275-308) -/

/-- One context line of `chatbot_api.format_context` (lines 283-306). -/
def formatContextLine (item : SearchResult) : String :=
  match item with
  | .task name progressStatus _ assignee _ =>
      "• Task: " ++ name ++ " (" ++ progressStatus ++ ")"
        ++ (if assignee != "Unassigned" then " - assigned to " ++ assignee else "")
        ++ "\n"
  | .user name email role =>
      "• Team Member: " ++ name ++ " (" ++ role ++ ")"
        ++ (if email != "" then " - " ++ email else "")
        ++ "\n"
  | .post title _ author =>
      "• Forum Post: '" ++ title ++ "' by " ++ author ++ "\n"
  | .comment _ author =>
      "• Comment by " ++ author ++ "\n"

/-- The source label appended per item by `chatbot_api.format_context`. -/
def formatContextSource (item : SearchResult) : String :=
  match item with
  | .task _ _ _ _ _ => "Tasks Database"
  | .user _ _ _ => "User Directory"
  | .post _ _ author => "Forum by " ++ author
  | .comment _ author => "Comments by " ++ author

/-- `chatbot_api.format_context` (lines 275-308): empty input short-cuts
to `("", [])`; otherwise the accumulated context is stripped and the
source list deduplicated (`list(set(sources))`).  The `query_type`
argument is accepted but never read, as in the source. -/
def formatContext (results : List SearchResult) (query_type : String) :
    String × List String :=
  match results with
  | [] => ("", [])
  | _ =>
      let _ := query_type
      (pythonStrip (String.join (results.map formatContextLine)),
       dedupFirst (results.map formatContextSource))

/-! ## Completion client and chat entry points, `chatbot_api.py` (lines 310-488) -/

/-- A successful completion response after `raise_for_status` and payload
extraction: the generated text and the reported token usage. -/
structure Completion where
  content : String
  total_tokens : Nat

/-- The chatbot handle of `chatbot_api.py`: the store connection, the
completion endpoint (an `Except`-valued call: a non-2xx status from
`raise_for_status` or a malformed payload missing
`choices[0].message.content` is an `error`), and the `verbose` flag
(which in the source only gates debug printing). -/
structure Chatbot where
  verbose : Bool
  store : Store
  complete : String → String → Except String Completion

/-- The fixed persona preamble of `chatbot_api.MindVerseAI.chat`
(lines 319-326). -/
def baseSystemMessageApi : String :=
  "You are MindVerse AI Assistant, a helpful AI for workspace questions.\n\nGUIDELINES:\n- Use workspace data directly when provided\n- Be specific with names, roles, and details\n- Start responses with \"Based on your workspace data...\" when relevant\n- Use natural, conversational language\n"

/-- The per-result label of the success path of `chatbot_api.chat`
(lines 356-366); note it differs from `format_context`'s labels for
users and posts. -/
def chatSourceLabel (item : SearchResult) : String :=
  match item with
  | .task _ _ _ _ _ => "Tasks Database"
  | .user _ _ _ => "Team Directory"
  | .post _ _ author => "Forum Posts by " ++ author
  | .comment _ author => "Comments by " ++ author

/-- The metadata dict returned by `chatbot_api.MindVerseAI.chat` with
`include_metadata=True` (the only mode `handle_chat_request` uses);
`intent_detected`, `results_found` and `filters_applied` are carried
along with the fields the claims inspect. -/
structure ChatMeta where
  answer : String
  sources : List String
  has_context : Bool
  tokens : Nat
  intent_detected : String
  results_found : Nat
  filters_applied : Option String
  error : Option String

/-- `chatbot_api.MindVerseAI.chat` (lines 310-395), `include_metadata=True`:
classify, search, format, build the system message, call the completion
endpoint; any exception (the completion call is the only fallible step
left, since every search helper catches its own) is converted to the
apologetic metadata dict of lines 383-393.  `bot.verbose` is not
consulted anywhere on the answer path, matching the source, where it only
gates `print` calls. -/
def chat (bot : Chatbot) (user_query : String) (max_results_each : Nat) : ChatMeta :=
  let intent := analyzeQueryIntentApi user_query
  let search_results := searchDatabase bot.store user_query intent max_results_each
  let ctxSources := formatContext search_results intent.type
  let context := ctxSources.1
  let sources := ctxSources.2
  let system_message :=
    baseSystemMessageApi
      ++ (if context != "" then
            "\n\nWORKSPACE DATA:\n" ++ context ++ "\n\nSources: "
              ++ String.intercalate ", " sources
              ++ "\n\nUse this data to answer the user's question."
          else "\n\nNo workspace data found. Provide general guidance.")
  match bot.complete system_message user_query with
  | .error e =>
      -- the source's failure dict omits intent_detected / results_found /
      -- filters_applied; they are embedded as the `.get` defaults
      -- `handle_chat_request` supplies for missing keys
      { answer := "Technical issue occurred: " ++ e ++ ". Please try again.",
        sources := [], has_context := false, tokens := 0,
        intent_detected := "unknown", results_found := 0,
        filters_applied := none, error := some e }
  | .ok result =>
      { answer := result.content,
        sources := dedupFirst (search_results.map chatSourceLabel),
        has_context := context != "",
        tokens := result.total_tokens,
        intent_detected := intent.type,
        results_found := search_results.length,
        filters_applied := intent.filters,
        error := none }

/-- The flat JSON envelope printed back to the Node.js caller. -/
structure Envelope where
  success : Bool
  answer : String
  sources : List String
  has_context : Bool
  tokens : Nat
deriving DecidableEq

/-- The no-chatbot branch of `chatbot_api.handle_chat_request`
(lines 440-448): the fixed failure envelope returned when initialization
produced no chatbot.  (The with-chatbot branch, `handleChatRequest`, is
defined after the sanitizer it uses.) -/
def handleChatRequestNoBot : Envelope :=
  { success := false,
    answer := "Chatbot initialization failed. Please check configuration.",
    sources := [], has_context := false, tokens := 0 }

/-! ## Response sanitizer, `clean_response_text`
(`chatbot_api.py` lines 402-417 and `meeting_api.py` lines 22-42, the
identical regex pipeline).

Each `re.sub` pass is embedded as a left-to-right scanner with the exact
semantics of the (backtracking, non-overlapping, global) substitution on
its concrete pattern.  Every scanner consumes at least one input
character per step, so a fuel of `length input` suffices and the
functions evaluate by kernel reduction. -/

/-- Pass `re.sub(r'\*\*([^*]+)\*\*', r'\1', text)`: at a position
starting with `**`, a non-empty run of non-`*` characters closed by `**`
is replaced by the run; otherwise the scan advances one character. -/
def subBold : Nat → List Char → List Char
  | 0, cs => cs
  | _ + 1, [] => []
  | fuel + 1, '*' :: '*' :: cs =>
      let content := cs.takeWhile (fun c => c ≠ '*')
      let rest := cs.dropWhile (fun c => c ≠ '*')
      match content, rest with
      | _ :: _, '*' :: '*' :: rest2 => content ++ subBold fuel rest2
      | _, _ => '*' :: subBold fuel ('*' :: cs)
  | fuel + 1, c :: cs => c :: subBold fuel cs

/-- Passes `re.sub(r'\*([^*]+)\*', r'\1', ...)` and
`re.sub(r'`([^`]+)`', r'\1', ...)`: single-delimiter pair stripping. -/
def subPair (m : Char) : Nat → List Char → List Char
  | 0, cs => cs
  | _ + 1, [] => []
  | fuel + 1, c :: cs =>
      if c = m then
        let content := cs.takeWhile (fun x => x ≠ m)
        let rest := cs.dropWhile (fun x => x ≠ m)
        match content, rest with
        | _ :: _, _ :: rest2 => content ++ subPair m fuel rest2
        | _, _ => c :: subPair m fuel cs
      else c :: subPair m fuel cs

/-- Pass `re.sub(r'#{1,6}\s*', '', ...)`: one to six `#` (greedy) plus
any following whitespace are deleted, anywhere in the text. -/
def subHeaders : Nat → List Char → List Char
  | 0, cs => cs
  | _ + 1, [] => []
  | fuel + 1, c :: cs =>
      if c = '#' then
        let k := min (1 + (cs.takeWhile (fun x => x = '#')).length) 6
        subHeaders fuel (((c :: cs).drop k).dropWhile isPySpace)
      else c :: subHeaders fuel cs

/-- Pass `re.sub(r'^[\s]*[-*+]\s*', '• ', ..., flags=re.MULTILINE)`.
`atStart` records whether the scan position is at offset 0 or just after
a newline of the original text; `[\s]*` and the trailing `\s*` are greedy
and may span newlines. -/
def subBullets (atStart : Bool) : Nat → List Char → List Char
  | 0, cs => cs
  | _ + 1, [] => []
  | fuel + 1, c :: cs =>
      if atStart then
        let rest := (c :: cs).dropWhile isPySpace
        match rest with
        | b :: rest2 =>
            if b = '-' || b = '*' || b = '+' then
              let trailing := rest2.takeWhile isPySpace
              let rest3 := rest2.dropWhile isPySpace
              '•' :: ' ' :: subBullets (trailing.getLast? == some '\n') fuel rest3
            else c :: subBullets (c = '\n') fuel cs
        | [] => c :: subBullets (c = '\n') fuel cs
      else c :: subBullets (c = '\n') fuel cs

/-- Pass `re.sub(r'^\s*\d+\.\s*', '• ', ..., flags=re.MULTILINE)`. -/
def subNumbered (atStart : Bool) : Nat → List Char → List Char
  | 0, cs => cs
  | _ + 1, [] => []
  | fuel + 1, c :: cs =>
      if atStart then
        let rest := (c :: cs).dropWhile isPySpace
        let digits := rest.takeWhile (fun x => x.isDigit)
        let afterDigits := rest.dropWhile (fun x => x.isDigit)
        match digits, afterDigits with
        | _ :: _, '.' :: rest2 =>
            let trailing := rest2.takeWhile isPySpace
            let rest3 := rest2.dropWhile isPySpace
            '•' :: ' ' :: subNumbered (trailing.getLast? == some '\n') fuel rest3
        | _, _ => c :: subNumbered (c = '\n') fuel cs
      else c :: subNumbered (c = '\n') fuel cs

/-- Pass `re.sub(r'\n\s*\n\s*\n+', '\n\n', ...)`: a whitespace run
holding at least three newlines is matched from its first newline up to
and including its last newline, and replaced by exactly two newlines. -/
def subBlankLines : Nat → List Char → List Char
  | 0, cs => cs
  | _ + 1, [] => []
  | fuel + 1, c :: cs =>
      if c = '\n' then
        let run := (c :: cs).takeWhile isPySpace
        if 3 ≤ (run.filter (fun x => x = '\n')).length then
          let matchLen := run.length - (run.reverse.takeWhile (fun x => x ≠ '\n')).length
          '\n' :: '\n' :: subBlankLines fuel ((c :: cs).drop matchLen)
        else c :: subBlankLines fuel cs
      else c :: subBlankLines fuel cs

/-- Pass `re.sub(r'[ \t]+', ' ', ...)`. -/
def subSpaces : Nat → List Char → List Char
  | 0, cs => cs
  | _ + 1, [] => []
  | fuel + 1, c :: cs =>
      if c = ' ' || c = '\t' then
        ' ' :: subSpaces fuel (cs.dropWhile (fun x => x = ' ' || x = '\t'))
      else c :: subSpaces fuel cs

/-- Pass `re.sub(r'^\s+|\s+$', '', ..., flags=re.MULTILINE)`.  At a
line-start position the first alternative deletes the whole (greedy,
newline-spanning) whitespace run; elsewhere `\s+$` deletes the longest
whitespace prefix of the run that stops at end of input or just before a
newline, leaving that newline in place. -/
def subTrimLines (atStart : Bool) : Nat → List Char → List Char
  | 0, cs => cs
  | _ + 1, [] => []
  | fuel + 1, c :: cs =>
      if isPySpace c then
        let run := (c :: cs).takeWhile isPySpace
        let rest := (c :: cs).dropWhile isPySpace
        if atStart then
          subTrimLines (run.getLast? == some '\n') fuel rest
        else if rest.isEmpty then
          subTrimLines false fuel []
        else
          -- find the longest k ≥ 1 with run[k] = '\n' (a `$` position)
          let tailNoNl := run.reverse.takeWhile (fun x => x ≠ '\n')
          let k := run.length - tailNoNl.length - 1
          if run.take k |>.isEmpty then
            c :: subTrimLines (c = '\n') fuel cs
          else
            subTrimLines ((run.take k).getLast? == some '\n') fuel ((c :: cs).drop k)
      else c :: subTrimLines (c = '\n') fuel cs

/-- `clean_response_text` (`chatbot_api.py` lines 402-417 /
`meeting_api.py` lines 22-42): `if not text: return text`, then the nine
substitution passes in source order, then `str.strip()`. -/
def cleanResponseText (text : String) : String :=
  if text == "" then text
  else
    let l0 := text.data
    let l1 := subBold l0.length l0
    let l2 := subPair '*' l1.length l1
    let l3 := subHeaders l2.length l2
    let l4 := subPair '`' l3.length l3
    let l5 := subBullets true l4.length l4
    let l6 := subNumbered true l5.length l5
    let l7 := subBlankLines l6.length l6
    let l8 := subSpaces l7.length l7
    let l9 := subTrimLines true l8.length l8
    String.mk (pythonStripList l9)

/-- `chatbot_api.handle_chat_request` (lines 437-488) with a chatbot
available: `chat` with `include_metadata=True` always yields a dict, so
the success-shaped envelope of lines 460-469 is built around the
sanitized answer.  (The outer `except` of lines 480-488 is unreachable in
the embedding because `chat` is total.) -/
def handleChatRequest (bot : Chatbot) (message : String) : Envelope :=
  let result := chat bot message 10
  { success := true,
    answer := cleanResponseText result.answer,
    sources := result.sources,
    has_context := result.has_context,
    tokens := result.tokens }

/-! ## Retriever, `chatbot.py` (lines 129-415)

`chatbot.py`'s searches use plain `find` plus per-document `find_one`
joins, and its `$regex` patterns are the raw (unescaped) query; the
predicate embedding below denotes them for metacharacter-free queries as
case-insensitive containment, exactly as for the escaped variant. -/

/-- The store boundary used by `chatbot.py`: collection `find`s plus the
single-document `users.find_one` used for joining. -/
structure StorePy where
  tasksFind : (TaskDoc → Bool) → Nat → Except String (List TaskDoc)
  usersFind : (UserDoc → Bool) → Nat → Except String (List UserDoc)
  usersFindOne : (UserDoc → Bool) → Except String (Option UserDoc)
  postsFind : (PostDoc → Bool) → Nat → Except String (List PostDoc)
  commentsFind : (CommentDoc → Bool) → Nat → Except String (List CommentDoc)

/-- The non-faulting `chatbot.py` store over an in-memory `DB`: plain
`find(...).limit(n)` on each collection (`limit(0)` is no limit), and
`users.find_one` returning the first matching document. -/
def goodStorePy (db : DB) : StorePy where
  tasksFind := fun pred lim => .ok (pyLimit lim (db.tasks.filter pred))
  usersFind := fun pred lim => .ok (pyLimit lim (db.users.filter pred))
  usersFindOne := fun pred => .ok (db.users.find? pred)
  postsFind := fun pred lim => .ok (pyLimit lim (db.posts.filter pred))
  commentsFind := fun pred lim => .ok (pyLimit lim (db.comments.filter pred))

/-- The filter of `chatbot.search_tasks_enhanced` (lines 172-184): a
non-empty status filter wins, otherwise `$or` containment on
`name`/`description`. -/
def taskMatchFilterPy (query : String) (filters : Option String) (d : TaskDoc) : Bool :=
  match filters with
  | some status => d.progressStatus == some status
  | none =>
      optField d.name (fun s => substrCI query s)
        || optField d.description (fun s => substrCI query s)

/-- The per-assignee resolution loop of `chatbot.search_tasks_enhanced`
(lines 195-208): falsy ids (embedded as 0) are skipped; a missing user or
a faulting `find_one` resolves to "Unknown User".  The loop touches only
`users_collection.find_one`, so only that lookup is passed in. -/
def resolveAssignees (findOne : (UserDoc → Bool) → Except String (Option UserDoc))
    (ids : List Nat) : List String :=
  (ids.filter (fun i => i ≠ 0)).map (fun i =>
    match findOne (fun u => u.id == i) with
    | .ok (some u) => u.username.getD (u.name.getD "Unknown User")
    | .ok none => "Unknown User"
    | .error _ => "Unknown User")

/-- `chatbot.search_tasks_enhanced` (lines 169-227). -/
def searchTasksEnhanced (st : StorePy) (query : String) (additional_filters : Option String)
    (max_results : Nat) : List SearchResult :=
  match st.tasksFind (taskMatchFilterPy query additional_filters) max_results with
  | .ok items =>
      items.map (fun item =>
        let assignee_names := resolveAssignees st.usersFindOne item.assignTo
        .task (item.name.getD "Untitled Task")
          (item.progressStatus.getD "No status")
          (item.description.getD "")
          (if assignee_names.isEmpty then "Unassigned"
           else String.intercalate ", " assignee_names)
          (item.dueDate.getD "No deadline"))
  | .error _ => []

/-- `chatbot.search_posts` (lines 341-389): `find` on title/body
containment; an ObjectId author reference is resolved through
`users.find_one`, a missing or unresolvable reference reports
"Unknown User" (an absent author key reports the `.get` default
"Unknown"). -/
def searchPostsPy (st : StorePy) (query : String) (max_results : Nat) : List SearchResult :=
  match st.postsFind (postMatchFilter query) max_results with
  | .ok items =>
      items.map (fun item =>
        let author :=
          match item.author with
          | some i =>
              (match st.usersFindOne (fun u => u.id == i) with
               | .ok (some u) => u.username.getD (u.name.getD "Unknown User")
               | .ok none => "Unknown User"
               | .error _ => "Unknown User")
          | none => "Unknown"
        .post (item.title.getD "No Title") (item.body.getD "") author)
  | .error _ => []

/-- The filter of `chatbot.search_users` (lines 393-398): `$or`
containment on `name`/`email` only (no `username` clause here). -/
def userMatchFilterPy (query : String) (u : UserDoc) : Bool :=
  optField u.name (fun s => substrCI query s)
    || optField u.email (fun s => substrCI query s)

/-- `chatbot.search_users` (lines 391-415): note the formatted dict reads
the stored `role` field (`.get('role', 'No Role')`), not the
`isLead`/`isHR` flags. -/
def searchUsersPy (st : StorePy) (query : String) (max_results : Nat) : List SearchResult :=
  match st.usersFind (userMatchFilterPy query) max_results with
  | .ok items =>
      items.map (fun u => .user (u.name.getD "User") (u.email.getD "") (u.role.getD "No Role"))
  | .error _ => []

/-- `chatbot.search_comments` (lines 315-339). -/
def searchCommentsPy (st : StorePy) (query : String) (max_results : Nat) : List SearchResult :=
  match st.commentsFind (commentMatchFilter query) max_results with
  | .ok items =>
      items.map (fun c => .comment (c.body.getD "No content") (c.name.getD "Unknown"))
  | .error _ => []

/-- `chatbot.search_with_intent` (lines 129-167): posts are searched
first (half the budget), then the intent-specific sub-queries are
appended — except the `posts` intent, which replaces the initial post
results with a full-budget post search — and the concatenation is
truncated to `max_results`.  Total for the same reason as
`searchDatabase`. -/
def searchWithIntent (st : StorePy) (query : String) (intent : IntentPy)
    (max_results : Nat) : List SearchResult :=
  let post_results := searchPostsPy st query (max_results / 2)
  (if intent.type = "tasks" then
    post_results ++ searchTasksEnhanced st query intent.filters max_results
  else if intent.type = "users" then
    post_results ++ searchUsersPy st query max_results
  else if intent.type = "posts" then
    searchPostsPy st query max_results
  else if intent.type = "comments" then
    post_results ++ searchCommentsPy st query max_results
  else
    post_results
      ++ searchTasksEnhanced st query none 2
      ++ searchCommentsPy st query 2
      ++ searchUsersPy st query 2).take max_results

/-! ## Context formatter, `chatbot.py` (`format_context_from_results`,
lines 229-313) -/

/-- Python `s[:n] + "..." if len(s) > n else s`. -/
def truncateWithEllipsis (n : Nat) (s : String) : String :=
  if n < s.length then String.mk (s.data.take n) ++ "..." else s

/-- The description clause of the tasks branch (lines 250-257): appended
only when the stripped description is non-empty, not a known placeholder,
and longer than 5 characters; one hard-coded rewording, then truncation
to 50 characters. -/
def taskDescriptionClause (rawDescription : String) : String :=
  let description := pythonStrip rawDescription
  if description != ""
      && !(["N/A", "This is a test task.", "This is a test task. Hello",
            "just test", ""].contains description)
      && 5 < description.length then
    let clean_desc := description.replace
      "Team needs to tidy up documentation of the project code"
      "Team needs to tidy up project code docs"
    " - " ++ truncateWithEllipsis 50 clean_desc
  else ""

/-- One line of the `query_type == "tasks"` branch (lines 238-260);
non-task items contribute nothing. -/
def taskLinePy (item : SearchResult) : String :=
  match item with
  | .task name status description assignee _ =>
      "• " ++ name ++ " (" ++ status ++ ")"
        ++ (if assignee != "Unassigned" then " - assigned to " ++ assignee else "")
        ++ taskDescriptionClause description
        ++ "\n"
  | _ => ""

/-- One block of the `query_type == "posts"` branch (lines 262-273). -/
def postLinePy (item : SearchResult) : String :=
  match item with
  | .post title content author =>
      let content := truncateWithEllipsis 100 content
      "• Post '" ++ title ++ "' by " ++ author ++ "\n"
        ++ (if pythonStrip content != "" then "  Content: " ++ content ++ "\n" else "")
  | _ => ""

/-- One line of the `query_type == "users"` branch (lines 275-289). -/
def userLinePy (item : SearchResult) : String :=
  match item with
  | .user name email role =>
      "• " ++ name
        ++ (if role != "" && role != "No role specified" then " (" ++ role ++ ")" else "")
        ++ (if email != "" then " - " ++ email else "")
        ++ "\n"
  | _ => ""

/-- One line of the general (mixed) branch (lines 291-310). -/
def generalLinePy (item : SearchResult) : String :=
  match item with
  | .task name status _ _ _ => "• Task: " ++ name ++ " (" ++ status ++ ")\n"
  | .post title _ author => "• Forum Post: " ++ title ++ " by " ++ author ++ "\n"
  | .comment content author =>
      "• Comment by " ++ author ++ ": " ++ truncateWithEllipsis 40 content ++ "\n"
  | .user name _ _ => "• Team Member: " ++ name ++ "\n"

/-- The source label collected by the general branch (every item
contributes one). -/
def generalSourcePy (item : SearchResult) : String :=
  match item with
  | .task _ _ _ _ _ => "Tasks Database"
  | .post _ _ author => "Forum by " ++ author
  | .comment _ author => "Comments by " ++ author
  | .user _ _ _ => "User Directory"

/-- `chatbot.format_context_from_results` (lines 229-313).  NOTE: an
empty result list returns the bare string `""` (line 231), not a
`(context, sources)` pair — the caller compensates with an
`isinstance(..., tuple)` check — so the embedded return type is a sum:
`Sum.inl` is the bare-string early return, `Sum.inr` the pair. -/
def formatContextFromResults (results : List SearchResult) (query_type : String) :
    String ⊕ String × List String :=
  match results with
  | [] => .inl ""
  | _ =>
      if query_type = "tasks" then
        .inr (pythonStrip ("Task Information:\n" ++ String.join (results.map taskLinePy)),
          dedupFirst (results.filterMap (fun i =>
            match i with
            | .task _ _ _ _ _ => some "Tasks Database"
            | _ => none)))
      else if query_type = "posts" then
        .inr (pythonStrip ("Forum Posts:\n" ++ String.join (results.map postLinePy)),
          dedupFirst (results.filterMap (fun i =>
            match i with
            | .post _ _ author => some ("Forum by " ++ author)
            | _ => none)))
      else if query_type = "users" then
        .inr (pythonStrip ("Team Members:\n" ++ String.join (results.map userLinePy)),
          dedupFirst (results.filterMap (fun i =>
            match i with
            | .user _ _ _ => some "User Directory"
            | _ => none)))
      else
        .inr (pythonStrip (String.join (results.map generalLinePy)),
          dedupFirst (results.map generalSourcePy))

/-! ## Meeting analysis fallbacks
(`meeting_api.get_enhanced_fallback_analysis`, lines 91-196, and
`meeting_analyzer.MeetingAnalyzer.create_fallback_analysis`,
lines 120-189).  The meeting functions read the same task dict shape as
the retriever, so `TaskDoc` is reused for `task_data`. -/

/-- One entry of a `status_config` dict: the per-status meeting template. -/
structure StatusConfig where
  title : String
  duration : Nat
  agenda : List String
  purpose : String
  discussion_points : List String

/-- The analysis dict produced by the fallback paths. -/
structure MeetingAnalysis where
  suggested_title : String
  suggested_duration : Nat
  urgency : String
  best_time_of_day : String
  best_day_suggestion : String
  agenda : List String
  meeting_purpose : String
  preparation_notes : String
  success_metrics : String
  recommended_discussion_points : List String
deriving DecidableEq

/-- The result dict of `get_enhanced_fallback_analysis`. -/
structure EnhancedFallbackResult where
  success : Bool
  analysis : MeetingAnalysis
  source : String
  fallback_reason : String
  tokens_used : Nat

/-- `meeting_api.py` status_config, "ToDo" entry (lines 99-117). -/
def enhancedToDoConfig (task_name : String) : StatusConfig where
  title := "Kickoff Meeting - " ++ task_name
  duration := 45
  agenda :=
    ["Project overview and objectives",
     "Requirements clarification and scope",
     "Role assignments and responsibilities",
     "Timeline and milestone planning",
     "Resource allocation discussion"]
  purpose := "Plan and initiate the execution of " ++ task_name
  discussion_points :=
    ["Define clear requirements for " ++ task_name,
     "Establish project scope and boundaries",
     "Assign team roles and responsibilities",
     "Set up development and communication workflow",
     "Plan testing and quality assurance approach"]

/-- `meeting_api.py` status_config, "In Progress" entry (lines 118-136). -/
def enhancedInProgressConfig (task_name : String) : StatusConfig where
  title := "Progress Review - " ++ task_name
  duration := 30
  agenda :=
    ["Current progress status update",
     "Technical challenges and blockers",
     "Resource needs and availability",
     "Timeline review and adjustments",
     "Next sprint planning"]
  purpose := "Review progress and resolve issues for " ++ task_name
  discussion_points :=
    ["Technical implementation progress of " ++ task_name,
     "Performance metrics and quality indicators",
     "Resource constraints and optimization",
     "Risk mitigation and contingency planning",
     "User feedback integration and iteration"]

/-- `meeting_api.py` status_config, "Review" entry (lines 137-155). -/
def enhancedReviewConfig (task_name : String) : StatusConfig where
  title := "Quality Review - " ++ task_name
  duration := 60
  agenda :=
    ["Deliverable presentation and demo",
     "Quality assessment and testing results",
     "Code review and technical evaluation",
     "User acceptance criteria verification",
     "Deployment and go-live planning"]
  purpose := "Review and approve deliverables for " ++ task_name
  discussion_points :=
    ["Quality assessment of " ++ task_name ++ " deliverables",
     "User experience and interface evaluation",
     "Performance benchmarks and optimization",
     "Documentation completeness and accuracy",
     "Deployment strategy and rollback procedures"]

/-- `status_config.get(task_status, status_config["In Progress"])` of
`meeting_api.py` line 158. -/
def enhancedConfigGet (task_name task_status : String) : StatusConfig :=
  if task_status = "ToDo" then enhancedToDoConfig task_name
  else if task_status = "In Progress" then enhancedInProgressConfig task_name
  else if task_status = "Review" then enhancedReviewConfig task_name
  else enhancedInProgressConfig task_name

/-- The description-driven extra discussion points of
`meeting_api.py` lines 160-171. -/
def enhancedExtraPoints (task_description : String) : List String :=
  if task_description != "" && 10 < task_description.length then
    let dl := strLower task_description
    if containsSub "ai" dl || containsSub "artificial intelligence" dl then
      ["AI model training and optimization strategies",
       "Data quality and algorithm performance metrics"]
    else if containsSub "ui" dl || containsSub "interface" dl then
      ["User interface design and usability testing",
       "Responsive design and accessibility compliance"]
    else if containsSub "api" dl then
      ["API design patterns and integration testing",
       "Authentication and security implementation"]
    else []
  else []

/-- `meeting_api.get_enhanced_fallback_analysis` (lines 91-196): total —
every key is read with a `.get` default, the status falls back to the
"In Progress" configuration, and the result always carries
`success: True` and `tokens_used: 0` whatever `error_msg` triggered the
fallback. -/
def getEnhancedFallbackAnalysis (task_data : TaskDoc) (error_msg : String) :
    EnhancedFallbackResult :=
  let task_name := task_data.name.getD "Task"
  let task_status := task_data.progressStatus.getD "In Progress"
  let task_description := task_data.description.getD ""
  let config := enhancedConfigGet task_name task_status
  let enhanced_points := config.discussion_points ++ enhancedExtraPoints task_description
  let urgency := if task_data.dueDate.getD "" != "" then "High" else "Medium"
  { success := true,
    analysis :=
      { suggested_title := config.title,
        suggested_duration := config.duration,
        urgency := urgency,
        best_time_of_day := "10:00 AM - 11:00 AM",
        best_day_suggestion := "Tuesday or Wednesday",
        agenda := config.agenda,
        meeting_purpose := config.purpose,
        preparation_notes := "Review " ++ task_name ++ " requirements and prepare status updates",
        success_metrics := "Clear action items assigned with timeline and responsibilities",
        recommended_discussion_points := enhanced_points },
    source := "enhanced_fallback",
    fallback_reason := error_msg,
    tokens_used := 0 }

/-- `meeting_analyzer.py` status_config, "ToDo" entry (lines 123-139). -/
def fallbackToDoConfig (task_name : String) : StatusConfig where
  title := "Kickoff Meeting - " ++ task_name
  duration := 45
  agenda :=
    ["Project overview and objectives",
     "Role assignments and responsibilities",
     "Timeline and milestone planning",
     "Resource requirements discussion"]
  purpose := "Plan and initiate the task execution"
  discussion_points :=
    ["Define project scope and deliverables",
     "Assign roles and responsibilities",
     "Set up communication channels",
     "Establish timeline and milestones"]

/-- `meeting_analyzer.py` status_config, "In Progress" entry (lines 140-156). -/
def fallbackInProgressConfig (task_name : String) : StatusConfig where
  title := "Progress Review - " ++ task_name
  duration := 30
  agenda :=
    ["Current progress status update",
     "Challenges and blockers discussion",
     "Resource needs assessment",
     "Next steps planning"]
  purpose := "Review progress and resolve issues"
  discussion_points :=
    ["Technical challenges and solutions",
     "Resource availability and constraints",
     "Timeline adjustments if needed",
     "Quality checkpoints and testing"]

/-- `meeting_analyzer.py` status_config, "Review" entry (lines 157-173). -/
def fallbackReviewConfig (task_name : String) : StatusConfig where
  title := "Quality Review - " ++ task_name
  duration := 60
  agenda :=
    ["Work deliverables presentation",
     "Quality assessment and feedback",
     "Revision requirements discussion",
     "Approval process and timeline"]
  purpose := "Review work quality and approve deliverables"
  discussion_points :=
    ["Deliverable quality assessment",
     "User feedback and requirements",
     "Performance and optimization",
     "Documentation and handover"]

/-- `meeting_analyzer.create_fallback_analysis` (lines 120-189).  Unlike
the enhanced variant it indexes `task_data['name']` (while building the
config dict) and `task_data['progressStatus']` (line 176) with brackets,
so a missing key raises `KeyError` — embedded as `Except.error`. -/
def createFallbackAnalysis (task_data : TaskDoc) : Except String MeetingAnalysis :=
  match task_data.name with
  | none => .error "KeyError: name"
  | some task_name =>
      match task_data.progressStatus with
      | none => .error "KeyError: progressStatus"
      | some task_status =>
          let config :=
            if task_status = "ToDo" then fallbackToDoConfig task_name
            else if task_status = "In Progress" then fallbackInProgressConfig task_name
            else if task_status = "Review" then fallbackReviewConfig task_name
            else fallbackInProgressConfig task_name
          .ok
            { suggested_title := config.title,
              suggested_duration := config.duration,
              urgency := "Medium",
              best_time_of_day := "10:00 AM - 11:00 AM",
              best_day_suggestion := "Tuesday or Wednesday",
              agenda := config.agenda,
              meeting_purpose := config.purpose,
              preparation_notes := "Review task requirements and current progress",
              success_metrics := "Clear action items assigned and timeline confirmed",
              recommended_discussion_points := config.discussion_points }

/-! ## Concrete fixtures used by the claim theorems -/

/-- An empty in-memory database. -/
def emptyDB : DB := { tasks := [], users := [], posts := [], comments := [] }

/-- A fully faulting store (every collection lookup raises). -/
def failStore (e : String) : Store where
  tasksAggregate := fun _ _ => .error e
  usersFind := fun _ _ => .error e
  postsAggregate := fun _ _ => .error e
  commentsFind := fun _ _ => .error e

/-- A fully faulting `chatbot.py` store. -/
def failStorePy (e : String) : StorePy where
  tasksFind := fun _ _ => .error e
  usersFind := fun _ _ => .error e
  usersFindOne := fun _ => .error e
  postsFind := fun _ _ => .error e
  commentsFind := fun _ _ => .error e

/-- A non-verbose chatbot whose completion endpoint always fails. -/
def boomBot : Chatbot :=
  { verbose := false, store := goodStore emptyDB,
    complete := fun _ _ => .error "boom" }

/-- The single Task result of the spec's formatter test vector. -/
def fixLoginTask : SearchResult :=
  .task "Fix login" "In Progress" "" "Unassigned" "No deadline"

/-- Eight task documents that all match the query "x". -/
def eightTaskDB : DB :=
  { tasks := (List.range 8).map (fun i =>
      { name := some ("x" ++ toString i), progressStatus := some "ToDo",
        description := none, dueDate := none, assignTo := [] }),
    users := [], posts := [], comments := [] }

/-- A database holding exactly one user. -/
def oneUserDB : DB :=
  { tasks := [],
    users := [{ id := 1, username := some "flo", name := some "Florence",
                email := some "flo@example.com", isLead := true, isHR := false,
                role := none }],
    posts := [], comments := [] }

/-- A task dict whose `progressStatus` is "Done" (outside the
`status_config` keys). -/
def deployDoneTask : TaskDoc :=
  { name := some "Deploy", progressStatus := some "Done",
    description := none, dueDate := none, assignTo := [] }

/-- A task dict with no `progressStatus` key at all. -/
def deployNoStatusTask : TaskDoc :=
  { name := some "Deploy", progressStatus := none,
    description := none, dueDate := none, assignTo := [] }

/-- The context component of a `format_context_from_results` return value
(the bare string of the empty-input early return, or the first component
of the pair). -/
def pyContextOf : String ⊕ String × List String → String
  | .inl s => s
  | .inr p => p.1

/-! ## Claim theorems -/

/-- C1 (counterexample): the claim fails as stated on `chatbot.py`'s
classifier: the query "wifi task" contains the Task-keyword "task" and no
status keyword, yet the classifier returns type "posts", because the
forum keyword group ("wifi") is checked before the task group in this
revision. -/
theorem c1_task_priority_counterexample :
    kwAny taskKeywordsPy (strLower "wifi task") = true ∧
    kwAny inProgressKeywordsPy (strLower "wifi task") = false ∧
    kwAny toDoKeywordsPy (strLower "wifi task") = false ∧
    kwAny doneKeywordsPy (strLower "wifi task") = false ∧
    kwAny reviewKeywordsPy (strLower "wifi task") = false ∧
    (analyzeQueryIntentPy "wifi task").type = "posts" ∧
    (analyzeQueryIntentPy "wifi task").type ≠ "tasks" := by
  decide

/-- C1 (amended): a query containing a Task-keyword and no status keyword
classifies as type "tasks" with an empty filters dict — unconditionally
for `chatbot_api.py`'s classifier (its task group is checked first), and
for `chatbot.py`'s classifier provided the query also contains none of
the forum keywords that this revision checks before the task group. -/
theorem c1_task_priority_amended :
    (∀ q : String,
      kwAny taskKeywordsApi (strLower q) = true →
      kwAny inProgressKeywordsApi (strLower q) = false →
      kwAny toDoKeywordsApi (strLower q) = false →
      kwAny doneKeywordsApi (strLower q) = false →
      kwAny reviewKeywordsApi (strLower q) = false →
      analyzeQueryIntentApi q = { type := "tasks", filters := none }) ∧
    (∀ q : String,
      kwAny forumKeywordsPy (strLower q) = false →
      kwAny taskKeywordsPy (strLower q) = true →
      kwAny inProgressKeywordsPy (strLower q) = false →
      kwAny toDoKeywordsPy (strLower q) = false →
      kwAny doneKeywordsPy (strLower q) = false →
      kwAny reviewKeywordsPy (strLower q) = false →
      analyzeQueryIntentPy q
        = { type := "tasks", filters := none, specific_search := false }) := by
  constructor
  · intro q h1 h2 h3 h4 h5
    simp [analyzeQueryIntentApi, statusFilterApi, h1, h2, h3, h4, h5]
  · intro q hf h1 h2 h3 h4 h5
    simp [analyzeQueryIntentPy, statusFilterPy, hf, h1, h2, h3, h4, h5]

/-- C1 (witness): the amended theorem applied to the concrete query
"task please". -/
theorem c1_task_priority_witness :
    analyzeQueryIntentApi "task please" = { type := "tasks", filters := none } ∧
    analyzeQueryIntentPy "task please"
      = { type := "tasks", filters := none, specific_search := false } :=
  ⟨c1_task_priority_amended.1 "task please"
      (by decide) (by decide) (by decide) (by decide) (by decide),
   c1_task_priority_amended.2 "task please"
      (by decide) (by decide) (by decide) (by decide) (by decide) (by decide)⟩

/-- C2 (counterexample): the claim fails as stated on `chatbot.py`'s
classifier: "team task selesai" contains the Task-keyword "task" and the
Done-keyword "selesai", yet the forum keyword "team" wins first, so the
returned intent has type "posts" and an empty filters dict rather than
progressStatus "Done". -/
theorem c2_done_filter_counterexample :
    kwAny taskKeywordsPy (strLower "team task selesai") = true ∧
    kwAny doneKeywordsPy (strLower "team task selesai") = true ∧
    (analyzeQueryIntentPy "team task selesai").filters ≠ some "Done" := by
  decide

/-- C2 (amended): a query containing a Task-keyword and a Done-status
keyword yields `filters.progressStatus = "Done"` provided it contains no
keyword of the earlier-priority status sub-groups (In Progress, ToDo) —
unconditionally so for `chatbot_api.py`'s classifier, and additionally
requiring no forum keyword for `chatbot.py`'s classifier. -/
theorem c2_done_filter_amended :
    (∀ q : String,
      kwAny taskKeywordsApi (strLower q) = true →
      kwAny doneKeywordsApi (strLower q) = true →
      kwAny inProgressKeywordsApi (strLower q) = false →
      kwAny toDoKeywordsApi (strLower q) = false →
      (analyzeQueryIntentApi q).filters = some "Done") ∧
    (∀ q : String,
      kwAny forumKeywordsPy (strLower q) = false →
      kwAny taskKeywordsPy (strLower q) = true →
      kwAny doneKeywordsPy (strLower q) = true →
      kwAny inProgressKeywordsPy (strLower q) = false →
      kwAny toDoKeywordsPy (strLower q) = false →
      (analyzeQueryIntentPy q).filters = some "Done") := by
  constructor
  · intro q ht hd h1 h2
    simp [analyzeQueryIntentApi, statusFilterApi, ht, hd, h1, h2]
  · intro q hf ht hd h1 h2
    simp [analyzeQueryIntentPy, statusFilterPy, hf, ht, hd, h1, h2]

/-- C2 (witness): the amended theorem applied to the concrete query
"task selesai". -/
theorem c2_done_filter_witness :
    (analyzeQueryIntentApi "task selesai").filters = some "Done" ∧
    (analyzeQueryIntentPy "task selesai").filters = some "Done" :=
  ⟨c2_done_filter_amended.1 "task selesai" (by decide) (by decide) (by decide) (by decide),
   c2_done_filter_amended.2 "task selesai"
      (by decide) (by decide) (by decide) (by decide) (by decide)⟩

/-- C3: `clean_response_text` is NOT idempotent, contradicting the spec:
the non-overlapping scan of `re.sub` on the inline-code pattern leaves a
residual marker pair on "``a``" (producing "`a`", still markdown), which
a second application strips to "a".  The failing input evaluated on the
embedded code. -/
theorem c3_sanitize_not_idempotent :
    cleanResponseText "``a``" = "`a`" ∧
    cleanResponseText (cleanResponseText "``a``") = "a" ∧
    cleanResponseText (cleanResponseText "``a``") ≠ cleanResponseText "``a``" := by
  decide

/-- C8 (counterexample): for the single Task result
(name "Fix login", progressStatus "In Progress", assignee "Unassigned",
empty description), neither formatter's context equals
"• Fix login (In Progress)" exactly: `chatbot_api.format_context`
prefixes the line with "Task: ", and
`chatbot.format_context_from_results` adds a "Task Information:" header
line. -/
theorem c8_task_line_counterexample :
    (formatContext [fixLoginTask] "tasks").1 ≠ "• Fix login (In Progress)" ∧
    pyContextOf (formatContextFromResults [fixLoginTask] "tasks")
      ≠ "• Fix login (In Progress)" := by
  decide

/-- C8 (amended): the task's own line does omit the assignee and
description clauses, but the full context is
"Task Information:\n• Fix login (In Progress)" for
`chatbot.format_context_from_results` and
"• Task: Fix login (In Progress)" for `chatbot_api.format_context`
(each with the single source label "Tasks Database"). -/
theorem c8_task_line_amended :
    formatContext [fixLoginTask] "tasks"
      = ("• Task: Fix login (In Progress)", ["Tasks Database"]) ∧
    formatContextFromResults [fixLoginTask] "tasks"
      = .inr ("Task Information:\n• Fix login (In Progress)", ["Tasks Database"]) := by
  decide

/-- C9 (counterexample): `chatbot.format_context_from_results` on an
empty result list returns the bare string "" (its line-231 early
return), not the pair `("", [])` the claim asserts. -/
theorem c9_empty_format_counterexample :
    formatContextFromResults [] "tasks" ≠ .inr ("", []) ∧
    formatContextFromResults [] "tasks" = .inl "" := by
  decide

/-- C9 (amended): for every intent type, `chatbot_api.format_context`
maps an empty result list to `("", [])`, while
`chatbot.format_context_from_results` returns the bare empty string
(which its caller's `isinstance` check then normalizes to an empty
context with no sources). -/
theorem c9_empty_format_amended :
    ∀ t : String,
      formatContext [] t = ("", []) ∧ formatContextFromResults [] t = .inl "" :=
  fun _ => ⟨rfl, rfl⟩

/-- C4 (counterexample): the claim's parenthetical "diagnostic detail
appended only in verbose/debug mode" fails on `chatbot_api.py`: with
`verbose = False` and a completion failure "boom", the returned answer
still carries the diagnostic detail, because the except-branch of `chat`
interpolates `str(e)` unconditionally. -/
theorem c4_upstream_failure_counterexample :
    boomBot.verbose = false ∧
    (handleChatRequest boomBot "hello").answer
      = "Technical issue occurred: boom. Please try again." ∧
    containsSub "boom" (handleChatRequest boomBot "hello").answer = true := by
  decide

/-- C4 (amended): whenever the completion call fails — whatever the
store, the verbose flag, the error text and the message — the chat
request handler returns a success-shaped envelope: `success = true`,
`sources = []`, `has_context = false`, `tokens = 0`, and the answer is
the sanitized apology template with the diagnostic detail always
interpolated (not only in verbose mode). -/
theorem c4_upstream_failure_amended :
    ∀ (st : Store) (v : Bool) (e msg : String),
      (handleChatRequest { verbose := v, store := st, complete := fun _ _ => .error e } msg).success = true ∧
      (handleChatRequest { verbose := v, store := st, complete := fun _ _ => .error e } msg).sources = [] ∧
      (handleChatRequest { verbose := v, store := st, complete := fun _ _ => .error e } msg).has_context = false ∧
      (handleChatRequest { verbose := v, store := st, complete := fun _ _ => .error e } msg).tokens = 0 ∧
      (handleChatRequest { verbose := v, store := st, complete := fun _ _ => .error e } msg).answer
        = cleanResponseText ("Technical issue occurred: " ++ e ++ ". Please try again.") :=
  fun _ _ _ _ => ⟨rfl, rfl, rfl, rfl, rfl⟩

/-- C10 (counterexample): the claim fails as stated for
`meeting_analyzer.create_fallback_analysis`: on a task dict whose
`progressStatus` key is absent it raises `KeyError` instead of using the
"In Progress" configuration. -/
theorem c10_fallback_counterexample :
    createFallbackAnalysis deployNoStatusTask = .error "KeyError: progressStatus" := by
  rfl

/-- C10 (amended): `meeting_api.get_enhanced_fallback_analysis` always
returns `success = True` and `tokens_used = 0` whatever error triggered
it, and for every `progressStatus` outside ToDo / In Progress / Review —
including absent — it uses the "In Progress" configuration
(title "Progress Review - <task name>", duration 30);
`meeting_analyzer.create_fallback_analysis` does the same for a present
non-enum status, but raises `KeyError` when the status key is absent. -/
theorem c10_fallback_amended :
    (∀ (td : TaskDoc) (err : String),
      (getEnhancedFallbackAnalysis td err).success = true ∧
      (getEnhancedFallbackAnalysis td err).tokens_used = 0) ∧
    (∀ (td : TaskDoc) (err : String),
      (∀ s, td.progressStatus = some s → s ∉ (["ToDo", "In Progress", "Review"] : List String)) →
      (getEnhancedFallbackAnalysis td err).analysis.suggested_title
          = "Progress Review - " ++ td.name.getD "Task" ∧
      (getEnhancedFallbackAnalysis td err).analysis.suggested_duration = 30) ∧
    (∀ (td : TaskDoc) (nm s : String),
      td.name = some nm → td.progressStatus = some s →
      s ∉ (["ToDo", "In Progress", "Review"] : List String) →
      (createFallbackAnalysis td).toOption.map
          (fun a => (a.suggested_title, a.suggested_duration))
        = some ("Progress Review - " ++ nm, 30)) := by
  refine ⟨fun td err => ⟨rfl, rfl⟩, ?_, ?_⟩
  · intro td err h
    match htd : td.progressStatus with
    | none =>
        simp [getEnhancedFallbackAnalysis, enhancedConfigGet, htd,
          enhancedInProgressConfig]
    | some s =>
        have hs := h s htd
        simp only [List.mem_cons, List.mem_singleton, not_or] at hs
        obtain ⟨hs1, hs2, hs3⟩ := hs
        simp [getEnhancedFallbackAnalysis, enhancedConfigGet, htd,
          enhancedInProgressConfig, hs1, hs2, hs3]
  · intro td nm s hn hp hs
    simp only [List.mem_cons, List.mem_singleton, not_or] at hs
    obtain ⟨hs1, hs2, hs3⟩ := hs
    simp [createFallbackAnalysis, hn, hp, hs1, hs2, hs3,
      fallbackInProgressConfig, Except.toOption]

/-- C10 (witness): the amended theorem applied to a concrete task with
status "Done" (outside the configured enum). -/
theorem c10_fallback_witness :
    (getEnhancedFallbackAnalysis deployDoneTask "API down").success = true ∧
    (getEnhancedFallbackAnalysis deployDoneTask "API down").tokens_used = 0 ∧
    (getEnhancedFallbackAnalysis deployDoneTask "API down").analysis.suggested_title
      = "Progress Review - Deploy" ∧
    (getEnhancedFallbackAnalysis deployDoneTask "API down").analysis.suggested_duration = 30 ∧
    (createFallbackAnalysis deployDoneTask).toOption.map
        (fun a => (a.suggested_title, a.suggested_duration))
      = some ("Progress Review - Deploy", 30) :=
  ⟨(c10_fallback_amended.1 deployDoneTask "API down").1,
   (c10_fallback_amended.1 deployDoneTask "API down").2,
   (c10_fallback_amended.2.1 deployDoneTask "API down"
      (fun s hs => by
        have : s = "Done" := by
          have h : some "Done" = some s := hs
          exact (Option.some.injEq _ _ ▸ h).symm
        subst this; decide)).1,
   (c10_fallback_amended.2.1 deployDoneTask "API down"
      (fun s hs => by
        have : s = "Done" := by
          have h : some "Done" = some s := hs
          exact (Option.some.injEq _ _ ▸ h).symm
        subst this; decide)).2,
   c10_fallback_amended.2.2 deployDoneTask "Deploy" "Done" rfl rfl (by decide)⟩

/-- C5: retrieval never propagates a store fault.  For every store,
query, intent and bound: a faulting collection lookup is
indistinguishable from one returning no documents (the faulted sub-query
contributes an empty list while the other sub-queries still contribute),
for each of the four collections of `chatbot_api.search_database` and of
`chatbot.search_with_intent`; and even with every lookup faulting, both
retrievers return the empty list rather than raising (both are total
functions by construction, mirroring their blanket `try/except`
handlers). -/
theorem c5_retrieval_fault_isolation :
    ∀ (st : Store) (stp : StorePy) (q : String) (intent : Intent)
      (intentP : IntentPy) (n : Nat) (e : String),
      (searchDatabase { st with tasksAggregate := fun _ _ => .error e } q intent n
        = searchDatabase { st with tasksAggregate := fun _ _ => .ok [] } q intent n) ∧
      (searchDatabase { st with usersFind := fun _ _ => .error e } q intent n
        = searchDatabase { st with usersFind := fun _ _ => .ok [] } q intent n) ∧
      (searchDatabase { st with postsAggregate := fun _ _ => .error e } q intent n
        = searchDatabase { st with postsAggregate := fun _ _ => .ok [] } q intent n) ∧
      (searchDatabase { st with commentsFind := fun _ _ => .error e } q intent n
        = searchDatabase { st with commentsFind := fun _ _ => .ok [] } q intent n) ∧
      (searchDatabase (failStore e) q intent n = []) ∧
      (searchWithIntent { stp with tasksFind := fun _ _ => .error e } q intentP n
        = searchWithIntent { stp with tasksFind := fun _ _ => .ok [] } q intentP n) ∧
      (searchWithIntent { stp with usersFind := fun _ _ => .error e } q intentP n
        = searchWithIntent { stp with usersFind := fun _ _ => .ok [] } q intentP n) ∧
      (searchWithIntent { stp with postsFind := fun _ _ => .error e } q intentP n
        = searchWithIntent { stp with postsFind := fun _ _ => .ok [] } q intentP n) ∧
      (searchWithIntent { stp with commentsFind := fun _ _ => .error e } q intentP n
        = searchWithIntent { stp with commentsFind := fun _ _ => .ok [] } q intentP n) ∧
      (searchWithIntent (failStorePy e) q intentP n = []) := by
  intro st stp q intent intentP n e
  refine ⟨?_, ?_, ?_, ?_, ?_, ?_, ?_, ?_, ?_, ?_⟩ <;>
    simp [searchDatabase, searchTasks, searchUsers, searchPosts, searchComments,
      searchWithIntent, searchTasksEnhanced, searchPostsPy, searchUsersPy,
      searchCommentsPy, failStore, failStorePy]

/-- C6: retrieval output is capped at `max_results` by truncation after
concatenation for every store, query, intent and bound, in both
retrievers (`chatbot_api.search_database` and
`chatbot.search_with_intent`); and on the non-faulting stores over a
database where exactly 8 task documents match a tasks-intent query,
retrieval with `max_results = 5` returns exactly the first 5 matching
documents in store-return order (formatted, with their joined
assignees), a list of length 5 — for `search_with_intent` on a store
with no posts, since that retriever spends half its budget on a post
search first. -/
theorem c6_retrieval_truncation :
    (∀ (st : Store) (q : String) (intent : Intent) (n : Nat),
      (searchDatabase st q intent n).length ≤ n) ∧
    (∀ (stp : StorePy) (q : String) (intentP : IntentPy) (n : Nat),
      (searchWithIntent stp q intentP n).length ≤ n) ∧
    (∀ (db : DB) (q : String),
      (db.tasks.filter (taskMatchFilter q none)).length = 8 →
      searchDatabase (goodStore db) q { type := "tasks", filters := none } 5
          = ((db.tasks.filter (taskMatchFilter q none)).take 5).map
              (fun t => formatTaskItem (t, db.users.filter (fun u => t.assignTo.contains u.id))) ∧
        (searchDatabase (goodStore db) q { type := "tasks", filters := none } 5).length = 5) ∧
    (∀ (db : DB) (q : String),
      db.posts = [] →
      (db.tasks.filter (taskMatchFilterPy q none)).length = 8 →
      searchWithIntent (goodStorePy db) q
          { type := "tasks", filters := none, specific_search := false } 5
          = ((db.tasks.filter (taskMatchFilterPy q none)).take 5).map
              (fun item =>
                let assignee_names := resolveAssignees (goodStorePy db).usersFindOne item.assignTo
                .task (item.name.getD "Untitled Task")
                  (item.progressStatus.getD "No status")
                  (item.description.getD "")
                  (if assignee_names.isEmpty then "Unassigned"
                   else String.intercalate ", " assignee_names)
                  (item.dueDate.getD "No deadline")) ∧
        (searchWithIntent (goodStorePy db) q
          { type := "tasks", filters := none, specific_search := false } 5).length = 5) := by
  refine ⟨?_, ?_, ?_, ?_⟩
  · intro st q intent n
    unfold searchDatabase
    exact List.length_take_le n _
  · intro stp q intentP n
    show (List.take n _).length ≤ n
    exact List.length_take_le n _
  · intro db q h8
    have hsd : searchDatabase (goodStore db) q { type := "tasks", filters := none } 5
        = (searchTasks (goodStore db) q none 5).take 5 := rfl
    have key : searchTasks (goodStore db) q none 5
        = ((db.tasks.filter (taskMatchFilter q none)).take 5).map
            (fun t => formatTaskItem (t, db.users.filter (fun u => t.assignTo.contains u.id))) := by
      show List.map formatTaskItem
          (((db.tasks.filter (taskMatchFilter q none)).map
            (fun t => (t, db.users.filter (fun u => t.assignTo.contains u.id)))).take 5) = _
      rw [← List.map_take, List.map_map]
      rfl
    constructor
    · rw [hsd, key, ← List.map_take, List.take_take, Nat.min_self]
    · rw [hsd, key, ← List.map_take, List.take_take, Nat.min_self]
      rw [List.length_map, List.length_take, h8]
      decide
  · intro db q hp h8
    have hpost : searchPostsPy (goodStorePy db) q (5 / 2) = [] := by
      simp [searchPostsPy, goodStorePy, pyLimit, hp]
    have hsw : searchWithIntent (goodStorePy db) q
        { type := "tasks", filters := none, specific_search := false } 5
        = (searchPostsPy (goodStorePy db) q (5 / 2)
            ++ searchTasksEnhanced (goodStorePy db) q none 5).take 5 := rfl
    have key : searchTasksEnhanced (goodStorePy db) q none 5
        = ((db.tasks.filter (taskMatchFilterPy q none)).take 5).map
            (fun item =>
              let assignee_names := resolveAssignees (goodStorePy db).usersFindOne item.assignTo
              .task (item.name.getD "Untitled Task")
                (item.progressStatus.getD "No status")
                (item.description.getD "")
                (if assignee_names.isEmpty then "Unassigned"
                 else String.intercalate ", " assignee_names)
                (item.dueDate.getD "No deadline")) := rfl
    constructor
    · rw [hsw, hpost, List.nil_append, key, ← List.map_take, List.take_take, Nat.min_self]
    · rw [hsw, hpost, List.nil_append, key, ← List.map_take, List.take_take, Nat.min_self]
      rw [List.length_map, List.length_take, h8]
      decide

/-- C7 (counterexample): the claim fails as stated on the cited
`chatbot.py` `search_users` (lines 391-415), which has no generic-query
branch: a generic query like "user" is regex-filtered against
`name`/`email`, so on a non-empty users collection whose single user
matches neither, both `search_users` and the users-intent
`search_with_intent` return ZERO results. -/
theorem c7_generic_user_page_counterexample :
    genericUserQuery "user" = true ∧
    oneUserDB.users ≠ [] ∧
    searchUsersPy (goodStorePy oneUserDB) "user" 10 = [] ∧
    searchWithIntent (goodStorePy oneUserDB) "user"
        { type := "users", filters := none, specific_search := false } 10 = [] := by
  decide

/-- C7 (amended): for `chatbot_api.search_users`, an empty or generic
query term builds the empty Mongo filter, returning the unfiltered page
of users bounded by `max_results` (all of them when the limit is 0,
since PyMongo `limit(0)` is no limit), and the users-intent
`search_database` returns a non-empty list whenever the collection is
non-empty and `max_results ≥ 1` — rather than zero results;
`chatbot.py`'s `search_users`, by contrast, always applies the
`name`/`email` regex filter, generic query or not, and so can return
zero results. -/
theorem c7_generic_user_page :
    ∀ (db : DB) (q : String) (n : Nat),
      genericUserQuery q = true →
      searchUsers (goodStore db) q n = (pyLimit n db.users).map formatUserItem ∧
      (db.users ≠ [] → 1 ≤ n →
        searchDatabase (goodStore db) q { type := "users", filters := none } n ≠ []) ∧
      searchUsersPy (goodStorePy db) q n
        = (pyLimit n (db.users.filter (userMatchFilterPy q))).map
            (fun u => .user (u.name.getD "User") (u.email.getD "") (u.role.getD "No Role")) := by
  intro db q n hg
  have hfilter : db.users.filter (userMatchFilter q) = db.users := by
    rw [List.filter_eq_self]
    intro a _
    simp [userMatchFilter, hg]
  have husers : ∀ m, searchUsers (goodStore db) q m = (pyLimit m db.users).map formatUserItem := by
    intro m
    show List.map formatUserItem (pyLimit m (db.users.filter (userMatchFilter q))) = _
    rw [hfilter]
  refine ⟨husers n, ?_, rfl⟩
  intro hne hn1 hcontra
  have hsd : searchDatabase (goodStore db) q { type := "users", filters := none } n
      = (searchUsers (goodStore db) q (n / 2)
          ++ searchTasks (goodStore db) q none (n / 2)).take n := rfl
  rw [hsd, husers] at hcontra
  rcases List.take_eq_nil_iff.mp hcontra with h | h
  · omega
  · rcases List.append_eq_nil.mp h with ⟨h1, _⟩
    have hpl : pyLimit (n / 2) db.users = [] := List.map_eq_nil_iff.mp h1
    by_cases h0 : n / 2 = 0
    · rw [pyLimit, if_pos h0] at hpl
      exact hne hpl
    · rw [pyLimit, if_neg h0] at hpl
      rcases List.take_eq_nil_iff.mp hpl with h2 | h2
      · exact h0 h2
      · exact hne h2

/-- C6 (witness): the truncation theorem applied, for both retrievers,
to the concrete post-free database with 8 matching task documents and
the query "x". -/
theorem c6_retrieval_truncation_witness :
    (eightTaskDB.tasks.filter (taskMatchFilter "x" none)).length = 8 ∧
    (searchDatabase (goodStore eightTaskDB) "x" { type := "tasks", filters := none } 5).length = 5 ∧
    (eightTaskDB.tasks.filter (taskMatchFilterPy "x" none)).length = 8 ∧
    (searchWithIntent (goodStorePy eightTaskDB) "x"
      { type := "tasks", filters := none, specific_search := false } 5).length = 5 :=
  ⟨by decide,
   (c6_retrieval_truncation.2.2.1 eightTaskDB "x" (by decide)).2,
   by decide,
   (c6_retrieval_truncation.2.2.2 eightTaskDB "x" rfl (by decide)).2⟩

/-- C7 (witness): the amended theorem applied to a one-user database
with the generic query "user" and `max_results = 10`. -/
theorem c7_generic_user_page_witness :
    searchUsers (goodStore oneUserDB) "user" 10
      = (pyLimit 10 oneUserDB.users).map formatUserItem ∧
    searchDatabase (goodStore oneUserDB) "user" { type := "users", filters := none } 10 ≠ [] :=
  ⟨(c7_generic_user_page oneUserDB "user" 10 (by decide)).1,
   (c7_generic_user_page oneUserDB "user" 10 (by decide)).2.1
      (List.cons_ne_nil _ _) (by decide)⟩
